import Mathlib

/-!
Verification of the chat front-end of this repository.

The model below is a shallow embedding of the client-side session
coordination code:

* the React chat widget `frontend/src/components/ChatComponent.jsx`
  (`sendMessage`, `uploadFile`, `handleFeedbackSubmit`, the feedback
  visibility map) together with its `FeedbackPanel` (`handleSubmit`);
* the static page script `app/static/script.js` (`handleFile`,
  `displayResponses`, `showNotification`).

Asynchronous network calls are modelled by passing the outcome of the
single `await` of each operation as an explicit parameter
(`ChatOutcome`, `UploadOutcome`, `FeedbackOutcome`); each coordinator
function is then a total state-transition function, which also returns
the request it issued (if any), so that "no network call is made" is a
statement about that component.  `Date.now()` observations are passed
in as explicit natural-number timestamps.
-/

/-- JavaScript `a || b` for strings: the empty string is falsy. -/
def jsOrStr (a b : String) : String := if a = "" then b else a

/-- JavaScript `a || b` where `a` may be `undefined` (modelled as `none`). -/
def jsOrOpt (a : Option String) (b : String) : String :=
  match a with
  | some s => jsOrStr s b
  | none => b

/-- JavaScript `String.prototype.trim`: strip leading and trailing whitespace. -/
def jsTrim (s : String) : String :=
  ⟨((s.data.dropWhile Char.isWhitespace).reverse.dropWhile Char.isWhitespace).reverse⟩

/-- The character for a single decimal digit, as produced by JavaScript
number-to-string conversion (digit `d` becomes the character of code `48 + d`). -/
def digitCh (d : Nat) : Char := Char.ofNat (48 + d)

/-- Fuel-driven base-10 rendering of a natural number, most significant digit
first.  The fuel argument only serves to make the recursion structural. -/
def natCharsAux : Nat → Nat → List Char
  | 0, _ => []
  | fuel + 1, n => if n < 10 then [digitCh n] else natCharsAux fuel (n / 10) ++ [digitCh (n % 10)]

/-- Decimal digit list of `n` (`n + 1` is always enough fuel). -/
def natChars (n : Nat) : List Char := natCharsAux (n + 1) n

/-- Model of JavaScript `Number.prototype.toString` (base 10) and of template
literal interpolation of a non-negative integer such as `Date.now()`. -/
def natStr (n : Nat) : String := ⟨natChars n⟩

/-- Numeric value of a decimal digit character. -/
def charVal (c : Char) : Nat := c.toNat - 48

/-- Read a decimal digit list back as a number (used to invert `natChars`). -/
def decodeChars (l : List Char) : Nat := l.foldl (fun a c => 10 * a + charVal c) 0

/-- Id of an assistant chat reply: `Date.now().toString()`
(ChatComponent.jsx, `sendMessage`, both the success and the error path). -/
def chatMsgId (t : Nat) : String := natStr t

/-- Id of the upload confirmation message: `` `file-${Date.now()}` ``. -/
def fileMsgId (t : Nat) : String := "file-" ++ natStr t

/-- Id of the Q&A batch container message: `` `qa-${Date.now()}` ``. -/
def qaMsgId (t : Nat) : String := "qa-" ++ natStr t

/-- Id of one Q&A item: `` `qa-item-${Date.now()}-${index}` ``. -/
def qaItemId (t i : Nat) : String := "qa-item-" ++ natStr t ++ "-" ++ natStr i

/-- One question/answer pair inside a `qaBatch` message
(`qaItems` entries built in `uploadFile`). -/
structure QAItem where
  id : String
  question : String
  answer : String
  source : String
deriving DecidableEq

/-- One entry of the React widget's `messages` array.  Fields that a given
message object does not carry in the JavaScript source are `none` / `false` /
empty here (JavaScript reads them as `undefined`). -/
structure Msg where
  id : Option String := none
  text : String := ""
  isUser : Bool := false
  question : Option String := none
  context : Option (List String) := none
  isQAContainer : Bool := false
  qaItems : Option (List QAItem) := none
  showDownload : Bool := false
  downloadOnly : Bool := false
deriving DecidableEq

/-- The React component's state: `messages`, `input`, `isProcessing`,
`selectedFile` (only its name matters to the model) and
`feedbackVisibility` (a key-to-boolean map; absent keys read as `false`). -/
structure ChatState where
  messages : List Msg
  input : String
  isProcessing : Bool
  selectedFile : Option String
  feedbackVisibility : String → Bool

/-- Outcome of the awaited `POST /chat`: either a parsed response body
(`response.data.response` and `response.data.context`, each possibly absent)
or a thrown error. -/
inductive ChatOutcome where
  | success (response : Option String) (context : Option (List String))
  | failure
deriving DecidableEq

/-- One entry of a successful `/upload` response list:
`{question, response, source}` (`source` possibly absent). -/
structure UploadItem where
  question : String
  response : String
  source : Option String
deriving DecidableEq

/-- Outcome of the awaited `POST /upload`: a body with `status = success`
and its `responses` list, a body with any other status and an optional
`message`, or a thrown error (whose `error.message` only the static page
displays). -/
inductive UploadOutcome where
  | success (responses : List UploadItem)
  | other (message : Option String)
  | failure (errMsg : String)
deriving DecidableEq

/-- Outcome of the awaited `POST /feedback`: body with `status = success`,
body with any other status, or a thrown error. -/
inductive FeedbackOutcome where
  | success
  | otherStatus
  | failure
deriving DecidableEq

/-- The welcome message seeded on mount (no `id`). -/
def welcomeMsg : Msg :=
  { text := "Hello, I\x27m Triskell Chatbot 👋, your AI-powered assistant.\n\nYou can ask me questions or upload an Excel file for analysis.",
    isUser := false }

/-- Component state right after mount. -/
def initialState : ChatState :=
  { messages := [welcomeMsg]
    input := ""
    isProcessing := false
    selectedFile := none
    feedbackVisibility := fun _ => false }

/-- `sendMessage` of ChatComponent.jsx.  `t` is the value of `Date.now()`
observed after the `/chat` request settles (it is read in both the success
and the error branch).  The guard `if (!input.trim()) return` makes the
function a no-op on whitespace-only input. -/
def sendMessage (s : ChatState) (o : ChatOutcome) (t : Nat) : ChatState :=
  if jsTrim s.input = "" then s
  else
    let userMessage := jsTrim s.input
    let base : ChatState :=
      { s with
        messages := s.messages ++ [{ text := userMessage, isUser := true }]
        input := ""
        isProcessing := true }
    match o with
    | ChatOutcome.success resp ctx =>
      { base with
        isProcessing := false
        messages := base.messages ++
          [{ id := some (chatMsgId t)
             text := jsOrOpt resp "I couldn\x27t process that request."
             isUser := false
             question := some userMessage
             context := some (ctx.getD []) }] }
    | ChatOutcome.failure =>
      { base with
        isProcessing := false
        messages := base.messages ++
          [{ id := some (chatMsgId t)
             text := "Sorry, there was an error processing your request."
             isUser := false }] }

/-- The `response.data.responses.map((item, index) => ({...}))` call of
`uploadFile`: item `index` gets id `qa-item-${Date.now()}-${index}`, with
`tI index` the `Date.now()` value observed at that iteration, and `source`
defaulted to `"unknown"` by `item.source || "unknown"`. -/
def buildQaItems (tI : Nat → Nat) : Nat → List UploadItem → List QAItem
  | _, [] => []
  | i, r :: rest =>
    { id := qaItemId (tI i) i
      question := r.question
      answer := r.response
      source := jsOrOpt r.source "unknown" } :: buildQaItems tI (i + 1) rest

/-- `uploadFile` of ChatComponent.jsx.  `tFile`, `tQa` and `tI` are the
`Date.now()` observations of the confirmation message id, the batch message
id and the per-item ids.  Returns the new state together with the name of
the file posted to `/upload` (`none` when the `if (!selectedFile) return`
guard fires and no request is made).  Note that `setSelectedFile(null)`
sits inside the `try` block, after the status branch, so it runs on both
status branches but not when the request throws. -/
def uploadFile (s : ChatState) (o : UploadOutcome) (tFile tQa : Nat) (tI : Nat → Nat) :
    ChatState × Option String :=
  match s.selectedFile with
  | none => (s, none)
  | some fname =>
    let base : ChatState :=
      { s with
        isProcessing := true
        messages := s.messages ++
          [{ text := "Uploading and processing " ++ fname ++ "...", isUser := true }] }
    match o with
    | UploadOutcome.success rs =>
      let confirmMsg : Msg :=
        { id := some (fileMsgId tFile)
          text := "File processed successfully! Here are the responses to your questions:"
          isUser := false }
      let qaMsg : Msg :=
        { id := some (qaMsgId tQa)
          isUser := false
          isQAContainer := true
          qaItems := some (buildQaItems tI 0 rs) }
      let dlMsg : Msg :=
        { text := "", isUser := false, showDownload := true, downloadOnly := true }
      ({ base with
          messages := base.messages ++ [confirmMsg, qaMsg, dlMsg]
          selectedFile := none
          isProcessing := false }, some fname)
    | UploadOutcome.other m =>
      ({ base with
          messages := base.messages ++
            [{ text := jsOrOpt m "File processed with some issues.", isUser := false }]
          selectedFile := none
          isProcessing := false }, some fname)
    | UploadOutcome.failure _ =>
      ({ base with
          messages := base.messages ++
            [{ text := "Error processing the file. Please try again.", isUser := false }]
          isProcessing := false }, some fname)

/-- `messages.find(msg => msg.id === feedbackData.messageId)`. -/
def flatFind (msgs : List Msg) (mid : String) : Option Msg :=
  msgs.find? (fun m => m.id = some mid)

/-- The fallback search of `handleFeedbackSubmit`: walk the messages in
order; in each message satisfying `msg.isQAContainer && msg.qaItems`, look
for a Q&A item whose `id` matches, and stop at the first hit. -/
def findQaItem : List Msg → String → Option QAItem
  | [], _ => none
  | m :: rest, mid =>
    if m.isQAContainer && m.qaItems.isSome then
      match (m.qaItems.getD []).find? (fun it => it.id = mid) with
      | some it => some it
      | none => findQaItem rest mid
    else findQaItem rest mid

/-- The object the `FeedbackPanel` hands to `onFeedbackSubmit`. -/
structure FeedbackData where
  messageId : String
  feedbackType : String
  editedAnswer : String
  relevance : Nat
  accuracy : Nat
deriving DecidableEq

/-- The body of the `POST /feedback` request (`completeData`). -/
structure FeedbackPayload where
  messageId : String
  feedbackType : String
  editedAnswer : String
  relevance : Nat
  accuracy : Nat
  original_query : String
  original_answer : String
  context_used : List String
deriving DecidableEq

/-- Result of one `handleFeedbackSubmit` run: the new component state, the
request posted to `/feedback` (`none` when the function aborted before the
network call) and the `alert` text shown, if any. -/
structure FeedbackStep where
  state : ChatState
  request : Option FeedbackPayload
  alert : Option String

/-- `handleFeedbackSubmit` of ChatComponent.jsx.  Resolution order: the flat
message list first, then the `qaItems` of every QA container; if, after
that, `originalQuery` and `originalAnswer` are both empty and no flat
message matched, the function alerts and returns without calling the
backend.  On `status = success` the feedback panel of `messageId` is hidden;
on any other status or a thrown error the visibility map is untouched. -/
def handleFeedbackSubmit (s : ChatState) (fd : FeedbackData) (o : FeedbackOutcome) :
    FeedbackStep :=
  let message := flatFind s.messages fd.messageId
  let resolved : String × String :=
    match message with
    | none =>
      match findQaItem s.messages fd.messageId with
      | some it => (it.question, it.answer)
      | none => ("", "")
    | some m => (jsOrStr (m.question.getD "") m.text, m.text)
  if resolved.1 = "" ∧ resolved.2 = "" ∧ message = none then
    { state := s, request := none, alert := some "Error processing feedback. Please try again." }
  else
    let payload : FeedbackPayload :=
      { messageId := fd.messageId
        feedbackType := fd.feedbackType
        editedAnswer := fd.editedAnswer
        relevance := fd.relevance
        accuracy := fd.accuracy
        original_query := resolved.1
        original_answer := resolved.2
        context_used := (message.bind (fun m => m.context)).getD [] }
    match o with
    | FeedbackOutcome.success =>
      { state :=
          { s with feedbackVisibility :=
              fun k => if k = fd.messageId then false else s.feedbackVisibility k }
        request := some payload
        alert := some "Thank you for your feedback!" }
    | FeedbackOutcome.otherStatus =>
      { state := s, request := some payload, alert := none }
    | FeedbackOutcome.failure =>
      { state := s, request := some payload, alert := some "Failed to submit feedback. Please try again." }

/-- `handleSubmit` of FeedbackPanel: validate the edited answer and build the
feedback object, or return `none` without calling `onFeedbackSubmit`. -/
def handleSubmit (mid editedAnswer : String) : Option FeedbackData :=
  if jsTrim editedAnswer = "" then none
  else
    some { messageId := mid
           feedbackType := "correction"
           editedAnswer := editedAnswer
           relevance := 5
           accuracy := 5 }

/-- One full feedback submission: panel validation followed (when it passes)
by `handleFeedbackSubmit`.  The second component is the panel's local
validation error (`setError`), signalled instead of any network activity. -/
def submitFeedbackFlow (s : ChatState) (mid editedAnswer : String) (o : FeedbackOutcome) :
    FeedbackStep × Option String :=
  match handleSubmit mid editedAnswer with
  | none =>
    ({ state := s, request := none, alert := none },
     some "Please enter at least one word before submitting.")
  | some fd => (handleFeedbackSubmit s fd o, none)

/-- One user-driven step of a session: typing into the input field, choosing
a file, a chat send settling with outcome `o` at time `t`, or a file upload
settling with the given outcome and `Date.now()` observations. -/
inductive SessionEvent where
  | setInput (text : String)
  | selectFile (name : String)
  | chat (o : ChatOutcome) (t : Nat)
  | upload (o : UploadOutcome) (tFile tQa : Nat) (tI : Nat → Nat)

/-- Apply one session event to the component state. -/
def applyEvent (s : ChatState) : SessionEvent → ChatState
  | SessionEvent.setInput txt => { s with input := txt }
  | SessionEvent.selectFile f => { s with selectedFile := some f }
  | SessionEvent.chat o t => sendMessage s o t
  | SessionEvent.upload o tF tQ tI => (uploadFile s o tF tQ tI).1

/-- Run a session from the freshly mounted component. -/
def runSession (evs : List SessionEvent) : ChatState :=
  evs.foldl applyEvent initialState

/-- The `Date.now()` observations an event can embed into ids. -/
def eventTimes : SessionEvent → List Nat
  | SessionEvent.chat _ t => [t]
  | SessionEvent.upload (UploadOutcome.success rs) tF tQ tI =>
    tF :: tQ :: (List.range' 0 rs.length).map tI
  | _ => []

/-- All `Date.now()` observations of a session, in order. -/
def timesList : List SessionEvent → List Nat
  | [] => []
  | e :: rest => eventTimes e ++ timesList rest

/-- The ids carried by one message: its own `id`, if any, followed by the
ids of its Q&A items. -/
def msgIds (m : Msg) : List String :=
  (match m.id with | some i => [i] | none => []) ++ (m.qaItems.getD []).map QAItem.id

/-- All ids present in a message list. -/
def allIds : List Msg → List String
  | [] => []
  | m :: rest => msgIds m ++ allIds rest

/-- `id` was generated from the `Date.now()` observation `t`: it has one of
the four shapes the widget produces. -/
def IdFrom (t : Nat) (id : String) : Prop :=
  id = chatMsgId t ∨ id = fileMsgId t ∨ id = qaMsgId t ∨ ∃ i, id = qaItemId t i

/-- One rendered entry of the static page's chat container. -/
structure StaticMsg where
  type : String
  text : String
  source : Option String
deriving DecidableEq

/-- State of the static page: the chat container contents and the
notifications shown so far (text and css class). -/
structure StaticState where
  chat : List StaticMsg
  notifications : List (String × String)
deriving DecidableEq

/-- Lower-cased character list of a file name (for the `/i` regex flag). -/
def lowerName (name : String) : List Char := name.data.map Char.toLower

/-- The static page's client-side file test
`file.name.match(/\.(xlsx|xls)$/i)`. -/
def isExcelName (name : String) : Bool :=
  (['.', 'x', 'l', 's', 'x'].isSuffixOf (lowerName name)) ||
  (['.', 'x', 'l', 's'].isSuffixOf (lowerName name))

/-- The question/response bubbles `displayResponses` appends, in order;
`source || 'AI Assistant'` supplies the source tag default. -/
def displayList : List UploadItem → List StaticMsg
  | [] => []
  | r :: rest =>
    { type := "question", text := r.question, source := none } ::
    { type := "response", text := r.response, source := some (jsOrOpt r.source "AI Assistant") } ::
    displayList rest

/-- `displayResponses` of script.js, including its empty-list notice. -/
def displayResponses (rs : List UploadItem) : List StaticMsg :=
  if rs.isEmpty then
    [{ type := "empty"
       text := "No questions found in the uploaded file. Please ensure your Excel file contains a \"questions\" column."
       source := none }]
  else displayList rs

/-- JavaScript string concatenation with a possibly-undefined value
(`'Error: ' + data.message` renders `undefined` literally). -/
def strOfUndef (m : Option String) : String :=
  match m with
  | some s => s
  | none => "undefined"

/-- `handleFile` of script.js.  Returns the new page state and the name of
the file posted to `/upload` (`none` when the extension test rejects the
file locally and no request is made).  On the request path the container is
cleared and the transient thinking message is added and removed again, so
only the outcome's messages remain. -/
def handleFile (st : StaticState) (fname : String) (o : UploadOutcome) :
    StaticState × Option String :=
  if isExcelName fname then
    match o with
    | UploadOutcome.success rs =>
      ({ chat := displayResponses rs
         notifications := st.notifications ++ [("File processed successfully!", "success")] },
       some fname)
    | UploadOutcome.other m =>
      ({ chat := []
         notifications := st.notifications ++ [("Error: " ++ strOfUndef m, "error")] },
       some fname)
    | UploadOutcome.failure e =>
      ({ chat := []
         notifications := st.notifications ++ [("Error uploading file: " ++ e, "error")] },
       some fname)
  else
    ({ st with notifications :=
        st.notifications ++ [("Please upload an Excel file (.xlsx or .xls)", "error")] },
     none)

/-! ### Concrete fixtures used by witnesses and counterexamples -/

/-- A freshly mounted component with a pending chat input (the spec's test
scenario "What is the project status?"). -/
def exChatState : ChatState :=
  { messages := [welcomeMsg]
    input := "What is the project status?"
    isProcessing := false
    selectedFile := none
    feedbackVisibility := fun _ => false }

/-- A state with `budget.xlsx` selected for upload. -/
def exUploadState : ChatState :=
  { messages := [welcomeMsg]
    input := ""
    isProcessing := false
    selectedFile := some "budget.xlsx"
    feedbackVisibility := fun _ => false }

/-- A state with `report.pdf` selected for upload. -/
def exPdfState : ChatState :=
  { messages := [welcomeMsg]
    input := ""
    isProcessing := false
    selectedFile := some "report.pdf"
    feedbackVisibility := fun _ => false }

/-- A Q&A batch message holding one item, as a successful upload produces. -/
def exBatchMsg : Msg :=
  { id := some (qaMsgId 2)
    isUser := false
    isQAContainer := true
    qaItems := some [{ id := qaItemId 3 0, question := "Q1 spend?", answer := "$10k", source := "sheet1" }] }

/-- A state whose only identified content is the one-item Q&A batch. -/
def exBatchState : ChatState :=
  { messages := [welcomeMsg, exBatchMsg]
    input := ""
    isProcessing := false
    selectedFile := none
    feedbackVisibility := fun _ => false }

/-- Like `exBatchState`, but the single Q&A item has an empty question and
an empty answer. -/
def exEmptyItemState : ChatState :=
  { messages := [welcomeMsg,
      { id := some (qaMsgId 2)
        isUser := false
        isQAContainer := true
        qaItems := some [{ id := qaItemId 3 0, question := "", answer := "", source := "unknown" }] }]
    input := ""
    isProcessing := false
    selectedFile := none
    feedbackVisibility := fun _ => false }

/-- A feedback object targeting the single item of `exBatchState`. -/
def exFeedback : FeedbackData :=
  { messageId := qaItemId 3 0
    feedbackType := "correction"
    editedAnswer := "A better answer"
    relevance := 5
    accuracy := 5 }

/-- A session interleaving one chat exchange and one upload, with pairwise
distinct `Date.now()` observations. -/
def exSession : List SessionEvent :=
  [SessionEvent.setInput "What is the project status?",
   SessionEvent.chat (ChatOutcome.success (some "On track") (some [])) 1,
   SessionEvent.selectFile "budget.xlsx",
   SessionEvent.upload (UploadOutcome.success
     [{ question := "Q1 spend?", response := "$10k", source := some "sheet1" }]) 2 3 (fun k => 4 + k),
   SessionEvent.setInput "And next year?",
   SessionEvent.chat ChatOutcome.failure 6]

/-- Two chat exchanges whose requests settle within the same millisecond. -/
def exCollidingSession : List SessionEvent :=
  [SessionEvent.setInput "a",
   SessionEvent.chat (ChatOutcome.success (some "r") none) 5,
   SessionEvent.setInput "b",
   SessionEvent.chat (ChatOutcome.success (some "r") none) 5]

/-! ### Decimal strings -/

theorem charVal_digitCh (d : Nat) (h : d < 10) : charVal (digitCh d) = d := by
  interval_cases d <;> decide

theorem digitCh_isDigit (d : Nat) (h : d < 10) : (digitCh d).isDigit = true := by
  interval_cases d <;> decide

theorem decodeChars_natCharsAux (fuel : Nat) :
    ∀ n, n < fuel → decodeChars (natCharsAux fuel n) = n := by
  induction fuel with
  | zero => intro n h; omega
  | succ fuel ih =>
    intro n h
    unfold natCharsAux
    split
    · next h10 => simp [decodeChars, List.foldl, charVal_digitCh n h10]
    · next h10 =>
      have hlt : n / 10 < fuel := by
        have := Nat.div_lt_self (by omega : 0 < n) (by omega : 1 < 10)
        omega
      rw [decodeChars, List.foldl_append]
      rw [show List.foldl (fun a c => 10 * a + charVal c) 0 (natCharsAux fuel (n / 10)) =
            decodeChars (natCharsAux fuel (n / 10)) from rfl]
      rw [ih (n / 10) hlt]
      simp [List.foldl, charVal_digitCh (n % 10) (Nat.mod_lt n (by omega))]
      omega

theorem decodeChars_natChars (n : Nat) : decodeChars (natChars n) = n :=
  decodeChars_natCharsAux (n + 1) n (Nat.lt_succ_self n)

theorem natChars_inj {m n : Nat} (h : natChars m = natChars n) : m = n := by
  have hm := decodeChars_natChars m
  rw [h, decodeChars_natChars n] at hm
  omega

theorem natChars_digits_aux (fuel : Nat) :
    ∀ n, n < fuel → ∀ c ∈ natCharsAux fuel n, c.isDigit = true := by
  induction fuel with
  | zero => intro n h; omega
  | succ fuel ih =>
    intro n h c hc
    unfold natCharsAux at hc
    split at hc
    · next h10 => simp at hc; subst hc; exact digitCh_isDigit n h10
    · next h10 =>
      have hlt : n / 10 < fuel := by
        have := Nat.div_lt_self (by omega : 0 < n) (by omega : 1 < 10)
        omega
      rw [List.mem_append] at hc
      rcases hc with hc | hc
      · exact ih (n / 10) hlt c hc
      · simp at hc; subst hc; exact digitCh_isDigit (n % 10) (Nat.mod_lt n (by omega))

theorem natChars_digit {c : Char} {n : Nat} (h : c ∈ natChars n) : c.isDigit = true :=
  natChars_digits_aux (n + 1) n (Nat.lt_succ_self n) c h

theorem natChars_ne_nil (n : Nat) : natChars n ≠ [] := by
  unfold natChars natCharsAux
  split <;> simp

theorem dash_not_mem_natChars (n : Nat) : ('-') ∉ natChars n := by
  intro h
  have := natChars_digit h
  simp at this

/-- Cutting two dash-separated dash-free blocks at the dash is unambiguous. -/
theorem append_dash_inj : ∀ (d1 : List Char) (d2 e1 e2 : List Char), ('-') ∉ d1 → ('-') ∉ d2 →
    d1 ++ ('-') :: e1 = d2 ++ ('-') :: e2 → d1 = d2 ∧ e1 = e2 := by
  intro d1
  induction d1 with
  | nil =>
    intro d2 e1 e2 _ h2 h
    cases d2 with
    | nil => simp at h; simp [h]
    | cons c d2' =>
      simp at h
      exact absurd (by simp [← h.1]) h2
  | cons c d1' ih =>
    intro d2 e1 e2 h1 h2 h
    cases d2 with
    | nil =>
      simp at h
      exact absurd (by simp [h.1]) h1
    | cons c' d2' =>
      simp at h
      obtain ⟨hc, hrest⟩ := h
      have := ih d2' e1 e2 (fun hm => h1 (List.mem_cons_of_mem _ hm))
        (fun hm => h2 (List.mem_cons_of_mem _ hm)) hrest
      exact ⟨by rw [hc, this.1], this.2⟩

theorem str_eq_iff_data {s t : String} : s = t ↔ s.data = t.data := by
  constructor
  · intro h; rw [h]
  · intro h
    cases s; cases t
    cases h
    rfl

/-! ### Distinctness of the generated ids -/

theorem chatMsgId_inj {t1 t2 : Nat} (h : chatMsgId t1 = chatMsgId t2) : t1 = t2 := by
  unfold chatMsgId natStr at h
  exact natChars_inj (str_eq_iff_data.mp h)

theorem fileMsgId_inj {t1 t2 : Nat} (h : fileMsgId t1 = fileMsgId t2) : t1 = t2 := by
  unfold fileMsgId natStr at h
  have hd := str_eq_iff_data.mp h
  simp only [String.data_append] at hd
  exact natChars_inj (List.append_cancel_left hd)

theorem qaMsgId_inj {t1 t2 : Nat} (h : qaMsgId t1 = qaMsgId t2) : t1 = t2 := by
  unfold qaMsgId natStr at h
  have hd := str_eq_iff_data.mp h
  simp only [String.data_append] at hd
  exact natChars_inj (List.append_cancel_left hd)

theorem qaItemId_inj {t1 i1 t2 i2 : Nat} (h : qaItemId t1 i1 = qaItemId t2 i2) :
    t1 = t2 ∧ i1 = i2 := by
  unfold qaItemId natStr at h
  have hd := str_eq_iff_data.mp h
  simp only [String.data_append] at hd
  have hd2 : ['q', 'a', '-', 'i', 't', 'e', 'm', '-'] ++ (natChars t1 ++ ('-') :: natChars i1) =
      ['q', 'a', '-', 'i', 't', 'e', 'm', '-'] ++ (natChars t2 ++ ('-') :: natChars i2) := by
    simpa [List.append_assoc] using hd
  have hd' : natChars t1 ++ ('-') :: natChars i1 = natChars t2 ++ ('-') :: natChars i2 :=
    List.append_cancel_left hd2
  have := append_dash_inj (natChars t1) (natChars t2) (natChars i1) (natChars i2)
    (dash_not_mem_natChars t1) (dash_not_mem_natChars t2) hd'
  exact ⟨natChars_inj this.1, natChars_inj this.2⟩

theorem chatMsgId_ne_fileMsgId (t1 t2 : Nat) : chatMsgId t1 ≠ fileMsgId t2 := by
  intro h
  unfold chatMsgId fileMsgId natStr at h
  have hd := str_eq_iff_data.mp h
  simp only [String.data_append] at hd
  have hf : ('f') ∈ natChars t1 := by
    rw [hd]; exact List.mem_append_left _ (by decide)
  have := natChars_digit hf
  simp at this

theorem chatMsgId_ne_qaMsgId (t1 t2 : Nat) : chatMsgId t1 ≠ qaMsgId t2 := by
  intro h
  unfold chatMsgId qaMsgId natStr at h
  have hd := str_eq_iff_data.mp h
  simp only [String.data_append] at hd
  have hf : ('q') ∈ natChars t1 := by
    rw [hd]; exact List.mem_append_left _ (by decide)
  have := natChars_digit hf
  simp at this

theorem chatMsgId_ne_qaItemId (t1 t2 i : Nat) : chatMsgId t1 ≠ qaItemId t2 i := by
  intro h
  unfold chatMsgId qaItemId natStr at h
  have hd := str_eq_iff_data.mp h
  simp only [String.data_append] at hd
  have hf : ('q') ∈ natChars t1 := by rw [hd]; simp
  have := natChars_digit hf
  simp at this

theorem fileMsgId_ne_qaMsgId (t1 t2 : Nat) : fileMsgId t1 ≠ qaMsgId t2 := by
  intro h
  unfold fileMsgId qaMsgId natStr at h
  have hd := str_eq_iff_data.mp h
  simp only [String.data_append] at hd
  simp at hd

theorem fileMsgId_ne_qaItemId (t1 t2 i : Nat) : fileMsgId t1 ≠ qaItemId t2 i := by
  intro h
  unfold fileMsgId qaItemId natStr at h
  have hd := str_eq_iff_data.mp h
  simp only [String.data_append] at hd
  simp at hd

theorem qaMsgId_ne_qaItemId (t1 t2 i : Nat) : qaMsgId t1 ≠ qaItemId t2 i := by
  intro h
  unfold qaMsgId qaItemId natStr at h
  have hd := str_eq_iff_data.mp h
  simp only [String.data_append] at hd
  have hd2 : ['q', 'a', '-'] ++ natChars t1 =
      ['q', 'a', '-'] ++ (['i', 't', 'e', 'm', '-'] ++ (natChars t2 ++ ('-') :: natChars i)) := by
    simpa [List.append_assoc] using hd
  have hd3 := List.append_cancel_left hd2
  have hi : ('i') ∈ natChars t1 := by rw [hd3]; simp
  have := natChars_digit hi
  simp at this

/-- Ids generated from distinct `Date.now()` observations are distinct,
whatever their shapes. -/
theorem IdFrom_ne {t1 t2 : Nat} (h : t1 ≠ t2) {s1 s2 : String}
    (h1 : IdFrom t1 s1) (h2 : IdFrom t2 s2) : s1 ≠ s2 := by
  intro hs
  subst hs
  rcases h1 with h1 | h1 | h1 | ⟨i1, h1⟩ <;> rcases h2 with h2 | h2 | h2 | ⟨i2, h2⟩ <;>
    rw [h1] at h2
  · exact h (chatMsgId_inj h2)
  · exact chatMsgId_ne_fileMsgId t1 t2 h2
  · exact chatMsgId_ne_qaMsgId t1 t2 h2
  · exact chatMsgId_ne_qaItemId t1 t2 i2 h2
  · exact chatMsgId_ne_fileMsgId t2 t1 h2.symm
  · exact h (fileMsgId_inj h2)
  · exact fileMsgId_ne_qaMsgId t1 t2 h2
  · exact fileMsgId_ne_qaItemId t1 t2 i2 h2
  · exact chatMsgId_ne_qaMsgId t2 t1 h2.symm
  · exact fileMsgId_ne_qaMsgId t2 t1 h2.symm
  · exact h (qaMsgId_inj h2)
  · exact qaMsgId_ne_qaItemId t1 t2 i2 h2
  · exact chatMsgId_ne_qaItemId t2 t1 i1 h2.symm
  · exact fileMsgId_ne_qaItemId t2 t1 i1 h2.symm
  · exact qaMsgId_ne_qaItemId t2 t1 i1 h2.symm
  · exact h (qaItemId_inj h2).1

/-! ### Properties of the Q&A item construction -/

theorem buildQaItems_length (tI : Nat → Nat) :
    ∀ (i : Nat) (rs : List UploadItem), (buildQaItems tI i rs).length = rs.length := by
  intro i rs
  induction rs generalizing i with
  | nil => rfl
  | cons r rest ih => simp [buildQaItems, ih]

theorem buildQaItems_map_id (tI : Nat → Nat) :
    ∀ (i : Nat) (rs : List UploadItem),
      (buildQaItems tI i rs).map QAItem.id =
        (List.range' i rs.length).map (fun k => qaItemId (tI k) k) := by
  intro i rs
  induction rs generalizing i with
  | nil => rfl
  | cons r rest ih => simp [buildQaItems, List.range', ih]

theorem buildQaItems_ids_nodup (tI : Nat → Nat) (i : Nat) (rs : List UploadItem) :
    ((buildQaItems tI i rs).map QAItem.id).Nodup := by
  rw [buildQaItems_map_id]
  exact (List.nodup_range' i rs.length 1 (by simp)).map_on
    (fun x _ y _ hxy => (qaItemId_inj hxy).2)

theorem buildQaItems_id_shape (tI : Nat → Nat) :
    ∀ (i : Nat) (rs : List UploadItem), ∀ it ∈ buildQaItems tI i rs,
      ∃ k, i ≤ k ∧ k < i + rs.length ∧ it.id = qaItemId (tI k) k := by
  intro i rs
  induction rs generalizing i with
  | nil => intro it hit; simp [buildQaItems] at hit
  | cons r rest ih =>
    intro it hit
    simp only [buildQaItems, List.mem_cons] at hit
    rcases hit with hit | hit
    · exact ⟨i, le_refl i, by simp, by rw [hit]⟩
    · obtain ⟨k, hk1, hk2, hk3⟩ := ih (i + 1) it hit
      exact ⟨k, by omega, by simp at hk2 ⊢; omega, hk3⟩

/-! ### Ids present in a message list -/

theorem allIds_append (l1 l2 : List Msg) : allIds (l1 ++ l2) = allIds l1 ++ allIds l2 := by
  induction l1 with
  | nil => rfl
  | cons m rest ih => simp [allIds, ih]

/-- The ids a single session event appends: they all stem from the event's
`Date.now()` observations, and they are mutually distinct by construction
(distinct literal prefixes and distinct item indices). -/
theorem applyEvent_ids (s : ChatState) (e : SessionEvent) :
    ∃ new : List String,
      allIds (applyEvent s e).messages = allIds s.messages ++ new ∧
      (∀ id ∈ new, ∃ t ∈ eventTimes e, IdFrom t id) ∧
      new.Nodup := by
  cases e with
  | setInput txt => exact ⟨[], by simp [applyEvent], by simp, by simp⟩
  | selectFile f => exact ⟨[], by simp [applyEvent], by simp, by simp⟩
  | chat o t =>
    by_cases hin : jsTrim s.input = ""
    · exact ⟨[], by simp [applyEvent, sendMessage, hin], by simp, by simp⟩
    · refine ⟨[chatMsgId t], ?_, ?_, by simp⟩
      · cases o with
        | success resp ctx =>
          simp [applyEvent, sendMessage, hin, allIds_append, allIds, msgIds]
        | failure =>
          simp [applyEvent, sendMessage, hin, allIds_append, allIds, msgIds]
      · intro id hid
        simp at hid
        exact ⟨t, by simp [eventTimes], Or.inl hid⟩
  | upload o tF tQ tI =>
    cases hsel : s.selectedFile with
    | none => exact ⟨[], by simp [applyEvent, uploadFile, hsel], by simp, by simp⟩
    | some fname =>
      cases o with
      | success rs =>
        refine ⟨fileMsgId tF :: qaMsgId tQ :: (buildQaItems tI 0 rs).map QAItem.id, ?_, ?_, ?_⟩
        · simp [applyEvent, uploadFile, hsel, allIds_append, allIds, msgIds]
        · intro id hid
          simp only [List.mem_cons] at hid
          rcases hid with hid | hid | hid
          · exact ⟨tF, by simp [eventTimes], Or.inr (Or.inl hid)⟩
          · exact ⟨tQ, by simp [eventTimes], Or.inr (Or.inr (Or.inl hid))⟩
          · rw [List.mem_map] at hid
            obtain ⟨it, hit, hform⟩ := hid
            obtain ⟨k, _, hk2, hk3⟩ := buildQaItems_id_shape tI 0 rs it hit
            refine ⟨tI k, ?_, Or.inr (Or.inr (Or.inr ⟨k, by rw [← hform, hk3]⟩))⟩
            simp [eventTimes, List.mem_map]
            exact Or.inr (Or.inr ⟨k, by simpa using hk2, rfl⟩)
        · refine List.Nodup.cons ?_ (List.Nodup.cons ?_ (buildQaItems_ids_nodup tI 0 rs))
          · intro hmem
            simp only [List.mem_cons] at hmem
            rcases hmem with hmem | hmem
            · exact fileMsgId_ne_qaMsgId tF tQ hmem
            · rw [List.mem_map] at hmem
              obtain ⟨it, hit, hform⟩ := hmem
              obtain ⟨k, _, _, hk3⟩ := buildQaItems_id_shape tI 0 rs it hit
              exact fileMsgId_ne_qaItemId tF (tI k) k (by rw [← hform, hk3])
          · intro hmem
            rw [List.mem_map] at hmem
            obtain ⟨it, hit, hform⟩ := hmem
            obtain ⟨k, _, _, hk3⟩ := buildQaItems_id_shape tI 0 rs it hit
            exact qaMsgId_ne_qaItemId tQ (tI k) k (by rw [← hform, hk3])
      | other m =>
        exact ⟨[], by simp [applyEvent, uploadFile, hsel, allIds_append, allIds, msgIds], by simp, by simp⟩
      | failure e =>
        exact ⟨[], by simp [applyEvent, uploadFile, hsel, allIds_append, allIds, msgIds], by simp, by simp⟩

/-- Folding a list of events preserves id-uniqueness, provided every id
already present stems from an already-consumed `Date.now()` observation and
the upcoming observations are fresh and pairwise distinct. -/
theorem runAux (evs : List SessionEvent) :
    ∀ (s : ChatState) (past : List Nat),
      (∀ id ∈ allIds s.messages, ∃ t ∈ past, IdFrom t id) →
      (allIds s.messages).Nodup →
      (∀ t ∈ past, t ∉ timesList evs) →
      (timesList evs).Nodup →
      (allIds (evs.foldl applyEvent s).messages).Nodup ∧
      (∀ id ∈ allIds (evs.foldl applyEvent s).messages,
        ∃ t ∈ past ++ timesList evs, IdFrom t id) := by
  induction evs with
  | nil =>
    intro s past hfrom hnd _ _
    refine ⟨hnd, ?_⟩
    intro id hid
    obtain ⟨t, ht, hf⟩ := hfrom id hid
    exact ⟨t, by simp [timesList, ht], hf⟩
  | cons e rest ih =>
    intro s past hfrom hnd hdisj hndtimes
    obtain ⟨new, heq, hmem, hnodupnew⟩ := applyEvent_ids s e
    have htimes_split : (eventTimes e).Nodup ∧ (timesList rest).Nodup ∧
        ∀ t ∈ eventTimes e, t ∉ timesList rest := by
      have : (eventTimes e ++ timesList rest).Nodup := by
        simpa [timesList] using hndtimes
      rw [List.nodup_append] at this
      exact ⟨this.1, this.2.1, fun t ht => this.2.2 ht⟩
    have hfrom' : ∀ id ∈ allIds (applyEvent s e).messages,
        ∃ t ∈ past ++ eventTimes e, IdFrom t id := by
      intro id hid
      rw [heq, List.mem_append] at hid
      rcases hid with hid | hid
      · obtain ⟨t, ht, hf⟩ := hfrom id hid
        exact ⟨t, List.mem_append_left _ ht, hf⟩
      · obtain ⟨t, ht, hf⟩ := hmem id hid
        exact ⟨t, List.mem_append_right _ ht, hf⟩
    have hnd' : (allIds (applyEvent s e).messages).Nodup := by
      rw [heq, List.nodup_append]
      refine ⟨hnd, hnodupnew, ?_⟩
      intro id1 h1 h2
      obtain ⟨t1, ht1, hf1⟩ := hfrom id1 h1
      obtain ⟨t2, ht2, hf2⟩ := hmem id1 h2
      have hne : t1 ≠ t2 := by
        intro hteq
        have : t1 ∈ timesList (e :: rest) := by
          simp [timesList]
          exact Or.inl (hteq ▸ ht2)
        exact hdisj t1 ht1 this
      exact IdFrom_ne hne hf1 hf2 rfl
    have hdisj' : ∀ t ∈ past ++ eventTimes e, t ∉ timesList rest := by
      intro t ht
      rw [List.mem_append] at ht
      rcases ht with ht | ht
      · intro hmem'
        exact hdisj t ht (by simp [timesList, hmem'])
      · exact htimes_split.2.2 t ht
    have := ih (applyEvent s e) (past ++ eventTimes e) hfrom' hnd' hdisj' htimes_split.2.1
    refine ⟨by simpa using this.1, ?_⟩
    intro id hid
    obtain ⟨t, ht, hf⟩ := this.2 id (by simpa using hid)
    refine ⟨t, ?_, hf⟩
    simp only [timesList, List.mem_append] at ht ⊢
    tauto

/-! ### The claims -/

/-- C1: for every input text that is non-empty after trimming, `sendMessage`
appends exactly one user message and then exactly one assistant message to
the message list — for every outcome of the chat request, success or
failure — and ends with the processing flag back at `false`.  The embedding
of `sendMessage` is a total function covering both the resolved and the
thrown branch of the `await`, so no exception escapes to the caller. -/
theorem sendMessage_one_user_one_assistant (s : ChatState) (o : ChatOutcome) (t : Nat)
    (h : jsTrim s.input ≠ "") :
    ∃ u a : Msg, (sendMessage s o t).messages = s.messages ++ [u, a] ∧
      u.isUser = true ∧ a.isUser = false ∧ (sendMessage s o t).isProcessing = false := by
  unfold sendMessage
  rw [if_neg h]
  cases o with
  | success resp ctx =>
    refine ⟨{ text := jsTrim s.input, isUser := true },
      { id := some (chatMsgId t)
        text := jsOrOpt resp "I couldn\x27t process that request."
        isUser := false
        question := some (jsTrim s.input)
        context := some (ctx.getD []) }, ?_, rfl, rfl, rfl⟩
    simp
  | failure =>
    refine ⟨{ text := jsTrim s.input, isUser := true },
      { id := some (chatMsgId t)
        text := "Sorry, there was an error processing your request."
        isUser := false }, ?_, rfl, rfl, rfl⟩
    simp

/-- Witness for C1 at a concrete state and outcome. -/
theorem sendMessage_one_user_one_assistant_witness :
    jsTrim exChatState.input ≠ "" ∧
    (∃ u a : Msg,
      (sendMessage exChatState (ChatOutcome.success (some "On track") (some [])) 7).messages =
        exChatState.messages ++ [u, a] ∧
      u.isUser = true ∧ a.isUser = false ∧
      (sendMessage exChatState
        (ChatOutcome.success (some "On track") (some [])) 7).isProcessing = false) :=
  ⟨by decide, sendMessage_one_user_one_assistant _ _ _ (by decide)⟩

/-- C2 counterexample: at a concrete state, when the chat request fails the
appended assistant message carries the id `Date.now().toString()` — here
`"5"` — contradicting the claim that it carries no id.  (Its text is the
fixed fallback, as the message-id map shows only the ids.) -/
theorem sendMessage_failure_carries_id_cex :
    (sendMessage exChatState ChatOutcome.failure 5).messages.map Msg.id =
      [none, none, some "5"] := by
  decide

/-- C2 (amended): when the chat request fails, `sendMessage` appends an
assistant message whose text is exactly
"Sorry, there was an error processing your request." and which carries the
id `Date.now().toString()` — so it is feedback-eligible, not id-less. -/
theorem sendMessage_failure_fallback (s : ChatState) (t : Nat) (h : jsTrim s.input ≠ "") :
    (sendMessage s ChatOutcome.failure t).messages =
      s.messages ++ [{ text := jsTrim s.input, isUser := true },
        { id := some (chatMsgId t)
          text := "Sorry, there was an error processing your request."
          isUser := false }] := by
  unfold sendMessage
  rw [if_neg h]
  simp

/-- Witness for the amended C2 at a concrete state. -/
theorem sendMessage_failure_fallback_witness :
    jsTrim exChatState.input ≠ "" ∧
    (sendMessage exChatState ChatOutcome.failure 5).messages =
      exChatState.messages ++ [{ text := jsTrim exChatState.input, isUser := true },
        { id := some (chatMsgId 5)
          text := "Sorry, there was an error processing your request."
          isUser := false }] :=
  ⟨by decide, sendMessage_failure_fallback _ _ (by decide)⟩

/-- C4 counterexample: the React `uploadFile` performs no file-extension
check — with `report.pdf` selected it posts the file to `/upload`, so the
rejection-before-any-network-request part of the claim fails for the React
variant. -/
theorem react_uploadFile_posts_pdf_cex :
    (uploadFile exPdfState (UploadOutcome.other none) 0 0 (fun _ => 0)).2 =
      some "report.pdf" := by
  decide

/-- C4 (amended): in the static variant, every selected file whose name
fails the `/\.(xlsx|xls)$/i` test — e.g. `report.pdf`, and also `.csv`
files, which the static page does not accept — is rejected locally: no
network request is made, the chat container is unchanged, and the only
effect is the notification "Please upload an Excel file (.xlsx or .xls)".
The React variant performs no such check (see the counterexample). -/
theorem static_rejects_non_excel (st : StaticState) (fname : String) (o : UploadOutcome)
    (h : isExcelName fname = false) :
    (handleFile st fname o).2 = none ∧
    (handleFile st fname o).1.chat = st.chat ∧
    (handleFile st fname o).1.notifications =
      st.notifications ++ [("Please upload an Excel file (.xlsx or .xls)", "error")] := by
  unfold handleFile
  rw [h]
  exact ⟨rfl, rfl, rfl⟩

/-- Witness for the amended C4: `report.pdf` at a concrete page state. -/
theorem static_rejects_non_excel_witness :
    isExcelName "report.pdf" = false ∧
    ((handleFile { chat := [], notifications := [] } "report.pdf"
        (UploadOutcome.other none)).2 = none ∧
     (handleFile { chat := [], notifications := [] } "report.pdf"
        (UploadOutcome.other none)).1.chat = [] ∧
     (handleFile { chat := [], notifications := [] } "report.pdf"
        (UploadOutcome.other none)).1.notifications =
       [] ++ [("Please upload an Excel file (.xlsx or .xls)", "error")]) :=
  ⟨by decide, static_rejects_non_excel _ _ _ (by decide)⟩

/-- C5 counterexample: when the upload request throws, `setSelectedFile(null)`
(which sits inside the `try` block) is skipped, so the selected-file
reference is not cleared, contradicting the claim for the thrown-failure
case. -/
theorem uploadFile_failure_keeps_selection_cex :
    (uploadFile exUploadState (UploadOutcome.failure "Network Error") 0 0 (fun _ => 0)).1.selectedFile =
      some "budget.xlsx" := by
  decide

/-- C5 (amended): the selected-file reference is cleared after a completed
attempt whose response was parsed — both on `status = success` and on any
other status — but it is left in place when the request throws. -/
theorem uploadFile_clears_selection_on_parsed_response (s : ChatState)
    (rs : List UploadItem) (m : Option String) (tF tQ : Nat) (tI : Nat → Nat) :
    (uploadFile s (UploadOutcome.success rs) tF tQ tI).1.selectedFile = none ∧
    (uploadFile s (UploadOutcome.other m) tF tQ tI).1.selectedFile = none := by
  cases hsel : s.selectedFile with
  | none => exact ⟨by simp [uploadFile, hsel], by simp [uploadFile, hsel]⟩
  | some fname => exact ⟨by simp [uploadFile, hsel], by simp [uploadFile, hsel]⟩

/-- C3: a successful `/upload` response with N question/answer pairs makes
`uploadFile` append (after the uploading-status message) a confirmation
message, one `qaBatch` message with exactly N items — whose ids are
pairwise distinct and distinct from the batch message's own id, for every
choice of `Date.now()` observations — and then exactly one download-prompt
message, which comes after the batch and is the only download-prompt among
the appended messages. -/
theorem uploadFile_success_batch (s : ChatState) (rs : List UploadItem) (tF tQ : Nat)
    (tI : Nat → Nat) (fname : String) (h : s.selectedFile = some fname) :
    ∃ upM confirmM qaM dlM : Msg,
      (uploadFile s (UploadOutcome.success rs) tF tQ tI).1.messages =
        s.messages ++ [upM, confirmM, qaM, dlM] ∧
      qaM.isQAContainer = true ∧
      (qaM.qaItems.getD []).length = rs.length ∧
      ((qaM.qaItems.getD []).map QAItem.id).Nodup ∧
      (∀ it ∈ qaM.qaItems.getD [], some it.id ≠ qaM.id) ∧
      upM.downloadOnly = false ∧ confirmM.downloadOnly = false ∧
      qaM.downloadOnly = false ∧ dlM.downloadOnly = true := by
  refine ⟨{ text := "Uploading and processing " ++ fname ++ "...", isUser := true },
    { id := some (fileMsgId tF)
      text := "File processed successfully! Here are the responses to your questions:"
      isUser := false },
    { id := some (qaMsgId tQ)
      isUser := false
      isQAContainer := true
      qaItems := some (buildQaItems tI 0 rs) },
    { text := "", isUser := false, showDownload := true, downloadOnly := true },
    ?_, rfl, ?_, ?_, ?_, rfl, rfl, rfl, rfl⟩
  · simp [uploadFile, h]
  · simpa using buildQaItems_length tI 0 rs
  · simpa using buildQaItems_ids_nodup tI 0 rs
  · intro it hit
    simp only [Option.getD_some] at hit
    obtain ⟨k, _, _, hk3⟩ := buildQaItems_id_shape tI 0 rs it hit
    simp only [ne_eq, Option.some.injEq]
    rw [hk3]
    exact fun heq => qaMsgId_ne_qaItemId tQ (tI k) k heq.symm

/-- Witness for C3: one question/answer pair at a concrete state. -/
theorem uploadFile_success_batch_witness :
    exUploadState.selectedFile = some "budget.xlsx" ∧
    (∃ upM confirmM qaM dlM : Msg,
      (uploadFile exUploadState (UploadOutcome.success
          [{ question := "Q1 spend?", response := "$10k", source := some "sheet1" }])
        1 2 (fun k => 3 + k)).1.messages =
        exUploadState.messages ++ [upM, confirmM, qaM, dlM] ∧
      qaM.isQAContainer = true ∧
      (qaM.qaItems.getD []).length =
        ([{ question := "Q1 spend?", response := "$10k", source := some "sheet1" }] : List UploadItem).length ∧
      ((qaM.qaItems.getD []).map QAItem.id).Nodup ∧
      (∀ it ∈ qaM.qaItems.getD [], some it.id ≠ qaM.id) ∧
      upM.downloadOnly = false ∧ confirmM.downloadOnly = false ∧
      qaM.downloadOnly = false ∧ dlM.downloadOnly = true) :=
  ⟨rfl, uploadFile_success_batch _ _ _ _ _ _ rfl⟩

/-- C6: when the edited answer trims to empty, the feedback panel's
validation stops the submission: no feedback object reaches
`handleFeedbackSubmit`, so no `/feedback` request is issued, the component
state — in particular the feedback-visibility map — is unchanged, and the
panel signals its local validation error. -/
theorem feedback_empty_answer_no_call (s : ChatState) (mid ea : String)
    (o : FeedbackOutcome) (h : jsTrim ea = "") :
    (submitFeedbackFlow s mid ea o).1.state = s ∧
    (submitFeedbackFlow s mid ea o).1.request = none ∧
    (submitFeedbackFlow s mid ea o).2 =
      some "Please enter at least one word before submitting." := by
  unfold submitFeedbackFlow handleSubmit
  rw [if_pos h]
  exact ⟨rfl, rfl, rfl⟩

/-- Witness for C6: a whitespace-only edited answer. -/
theorem feedback_empty_answer_no_call_witness :
    jsTrim "   " = "" ∧
    ((submitFeedbackFlow exBatchState (qaItemId 3 0) "   " FeedbackOutcome.success).1.state =
        exBatchState ∧
     (submitFeedbackFlow exBatchState (qaItemId 3 0) "   " FeedbackOutcome.success).1.request = none ∧
     (submitFeedbackFlow exBatchState (qaItemId 3 0) "   " FeedbackOutcome.success).2 =
       some "Please enter at least one word before submitting.") :=
  ⟨by decide, feedback_empty_answer_no_call _ _ _ _ (by decide)⟩

/-- C8: when the target id matches neither a flat message nor any Q&A item,
`handleFeedbackSubmit` aborts locally: no `/feedback` request is issued,
the state is unchanged, and the could-not-find-message error is alerted. -/
theorem feedback_unresolved_aborts (s : ChatState) (fd : FeedbackData) (o : FeedbackOutcome)
    (hflat : flatFind s.messages fd.messageId = none)
    (hitem : findQaItem s.messages fd.messageId = none) :
    (handleFeedbackSubmit s fd o).request = none ∧
    (handleFeedbackSubmit s fd o).state = s ∧
    (handleFeedbackSubmit s fd o).alert =
      some "Error processing feedback. Please try again." := by
  unfold handleFeedbackSubmit
  rw [hflat, hitem]
  exact ⟨rfl, rfl, rfl⟩

/-- Witness for C8: an id matching nothing in the state. -/
theorem feedback_unresolved_aborts_witness :
    flatFind exBatchState.messages "no-such-id" = none ∧
    findQaItem exBatchState.messages "no-such-id" = none ∧
    ((handleFeedbackSubmit exBatchState
        { messageId := "no-such-id", feedbackType := "correction", editedAnswer := "x",
          relevance := 5, accuracy := 5 } FeedbackOutcome.success).request = none ∧
     (handleFeedbackSubmit exBatchState
        { messageId := "no-such-id", feedbackType := "correction", editedAnswer := "x",
          relevance := 5, accuracy := 5 } FeedbackOutcome.success).state = exBatchState ∧
     (handleFeedbackSubmit exBatchState
        { messageId := "no-such-id", feedbackType := "correction", editedAnswer := "x",
          relevance := 5, accuracy := 5 } FeedbackOutcome.success).alert =
       some "Error processing feedback. Please try again.") :=
  ⟨by decide, by decide, feedback_unresolved_aborts _ _ _ (by decide) (by decide)⟩

/-- C7 counterexample: for a Q&A item whose question and answer are both
empty strings, the resolved values are JavaScript-falsy, so the
`!originalQuery && !originalAnswer && !message` guard fires and
`handleFeedbackSubmit` aborts without calling the backend — even though the
target id exists as a Q&A item, contradicting the claim that the backend is
always called in that situation. -/
theorem feedback_empty_qa_item_aborts_cex :
    (handleFeedbackSubmit exEmptyItemState exFeedback FeedbackOutcome.success).request = none := by
  decide

/-- C7 (amended): for a feedback target id that exists as a Q&A item but not
as a flat message, provided the item's question and answer are not both
empty, `handleFeedbackSubmit` resolves `original_query`/`original_answer`
to that item's question/answer (flat messages are searched first, the batch
items second — the hypotheses say the flat search missed), posts the
request, and on a success response hides exactly that item's feedback form,
leaving every other key of the visibility map unchanged. -/
theorem feedback_qa_item_resolution (s : ChatState) (fd : FeedbackData)
    (o : FeedbackOutcome) (it : QAItem)
    (hflat : flatFind s.messages fd.messageId = none)
    (hitem : findQaItem s.messages fd.messageId = some it)
    (hne : ¬ (it.question = "" ∧ it.answer = "")) :
    ∃ p : FeedbackPayload,
      (handleFeedbackSubmit s fd o).request = some p ∧
      p.original_query = it.question ∧ p.original_answer = it.answer ∧
      (o = FeedbackOutcome.success →
        (handleFeedbackSubmit s fd o).state.feedbackVisibility fd.messageId = false ∧
        ∀ k, k ≠ fd.messageId →
          (handleFeedbackSubmit s fd o).state.feedbackVisibility k = s.feedbackVisibility k) := by
  unfold handleFeedbackSubmit
  rw [hflat, hitem]
  rw [if_neg (by simpa using hne)]
  cases o with
  | success =>
    refine ⟨_, rfl, rfl, rfl, fun _ => ⟨?_, ?_⟩⟩
    · simp
    · intro k hk
      simp [hk]
  | otherStatus =>
    exact ⟨_, rfl, rfl, rfl, fun hcontra => FeedbackOutcome.noConfusion hcontra⟩
  | failure =>
    exact ⟨_, rfl, rfl, rfl, fun hcontra => FeedbackOutcome.noConfusion hcontra⟩

/-- Witness for the amended C7 at the one-item batch state. -/
theorem feedback_qa_item_resolution_witness :
    flatFind exBatchState.messages exFeedback.messageId = none ∧
    findQaItem exBatchState.messages exFeedback.messageId =
      some { id := qaItemId 3 0, question := "Q1 spend?", answer := "$10k", source := "sheet1" } ∧
    ¬ (("Q1 spend?" : String) = "" ∧ ("$10k" : String) = "") ∧
    (∃ p : FeedbackPayload,
      (handleFeedbackSubmit exBatchState exFeedback FeedbackOutcome.success).request = some p ∧
      p.original_query = "Q1 spend?" ∧ p.original_answer = "$10k" ∧
      (FeedbackOutcome.success = FeedbackOutcome.success →
        (handleFeedbackSubmit exBatchState exFeedback
          FeedbackOutcome.success).state.feedbackVisibility exFeedback.messageId = false ∧
        ∀ k, k ≠ exFeedback.messageId →
          (handleFeedbackSubmit exBatchState exFeedback
            FeedbackOutcome.success).state.feedbackVisibility k =
            exBatchState.feedbackVisibility k)) :=
  ⟨by decide, by decide, by decide,
    feedback_qa_item_resolution exBatchState exFeedback FeedbackOutcome.success
      { id := qaItemId 3 0, question := "Q1 spend?", answer := "$10k", source := "sheet1" }
      (by decide) (by decide) (by decide)⟩

/-- C10: whenever the feedback target id matches no flat message (so the
resolution goes through a Q&A item), `message` is `undefined` and the
payload's `context_used` — `message?.context || []` — is the empty list,
whatever upload response produced the item and whatever the outcome. -/
theorem feedback_via_batch_context_empty (s : ChatState) (fd : FeedbackData)
    (o : FeedbackOutcome) (it : QAItem)
    (hflat : flatFind s.messages fd.messageId = none)
    (hitem : findQaItem s.messages fd.messageId = some it) :
    ∀ p : FeedbackPayload,
      (handleFeedbackSubmit s fd o).request = some p → p.context_used = [] := by
  unfold handleFeedbackSubmit
  rw [hflat, hitem]
  by_cases hg : it.question = "" ∧ it.answer = ""
  · rw [if_pos (by simpa using hg)]
    intro p hp
    exact absurd hp (by simp)
  · rw [if_neg (by simpa using hg)]
    cases o with
    | success =>
      intro p hp
      simp only [Option.some.injEq] at hp
      rw [← hp]
      rfl
    | otherStatus =>
      intro p hp
      simp only [Option.some.injEq] at hp
      rw [← hp]
      rfl
    | failure =>
      intro p hp
      simp only [Option.some.injEq] at hp
      rw [← hp]
      rfl

/-- Witness for C10 at the one-item batch state. -/
theorem feedback_via_batch_context_empty_witness :
    flatFind exBatchState.messages exFeedback.messageId = none ∧
    findQaItem exBatchState.messages exFeedback.messageId =
      some { id := qaItemId 3 0, question := "Q1 spend?", answer := "$10k", source := "sheet1" } ∧
    (∀ p : FeedbackPayload,
      (handleFeedbackSubmit exBatchState exFeedback FeedbackOutcome.otherStatus).request = some p →
        p.context_used = []) :=
  ⟨by decide, by decide,
    feedback_via_batch_context_empty exBatchState exFeedback FeedbackOutcome.otherStatus
      { id := qaItemId 3 0, question := "Q1 spend?", answer := "$10k", source := "sheet1" }
      (by decide) (by decide)⟩

/-- C9 counterexample: two chat sends whose requests settle within the same
millisecond (`Date.now()` returning 5 both times) produce two assistant
messages with the identical id `"5"`, so the ids assigned in one session
are not always pairwise distinct. -/
theorem session_id_collision_cex :
    ¬ (allIds (runSession exCollidingSession).messages).Nodup := by
  decide

/-- C9 (amended): every message or Q&A item id assigned during a session is
distinct from every other id assigned in that session, for every
interleaving of chat sends and file uploads, provided all `Date.now()`
observations of the session are pairwise distinct (ids repeat when two
operations observe the same millisecond — see the counterexample). -/
theorem session_ids_nodup (evs : List SessionEvent) (h : (timesList evs).Nodup) :
    (allIds (runSession evs).messages).Nodup := by
  have hinit : allIds initialState.messages = [] := rfl
  have := runAux evs initialState []
    (by rw [hinit]; intro id hid; cases hid)
    (by rw [hinit]; exact List.nodup_nil)
    (by intro t ht; cases ht)
    h
  exact this.1

/-- Witness for the amended C9: a session with one chat exchange, one upload
and one failed chat, all with distinct `Date.now()` observations. -/
theorem session_ids_nodup_witness :
    (timesList exSession).Nodup ∧ (allIds (runSession exSession).messages).Nodup :=
  ⟨by decide, session_ids_nodup exSession (by decide)⟩
